import Mathlib

/-!
Shallow embedding of the Next-Gen Deep Research backend.

The repository consists of two files:
* `src/nextgen-research-app/backend/app.py` — a FastAPI endpoint
  `run_research` that validates a `ResearchRequest`, dispatches to one of
  three external collaborators (a direct chat-model call, a single-agent
  researcher graph, or the full multi-agent graph) and wraps the result
  in a `ResearchResponse` or an `HTTPException`.
* `src/run.py` — a process launcher that locates the backend module on
  disk, loads it, and runs the HTTP server.

The collaborators are external black boxes; they are embedded here as a
record of `Except`-returning functions (`Collaborators`).  The dispatcher
is embedded as a pure function that, in addition to its HTTP outcome,
returns the list of collaborator invocations it performed, so that
"exactly one call" and "no call" properties are directly statable.
Filesystem and server effects of the launcher are abstracted into a
`LauncherEnv` record.
-/

namespace DeepResearch

/-- The four request modes of the `mode: Literal[...]` field of
`ResearchRequest` in `app.py`. -/
inductive Mode where
  | quick
  | deep_web
  | deep_web_and_local
  | llm_only
deriving DecidableEq, Repr

/-- The string value each mode carries on the wire (the Python `mode`
field is that string itself). -/
def modeStr : Mode → String
  | Mode.quick => "quick"
  | Mode.deep_web => "deep_web"
  | Mode.deep_web_and_local => "deep_web_and_local"
  | Mode.llm_only => "llm_only"

/-- `ResearchRequest` from `app.py`: question, mode, and three optional
fields.  `Optional[str] = None` becomes `Option String`. -/
structure ResearchRequest where
  question : String
  mode : Mode
  template : Option String := none
  provider : Option String := none
  model : Option String := none
deriving DecidableEq, Repr

/-- `ResearchResponse` from `app.py`. -/
structure ResearchResponse where
  mode : String
  question : String
  final_report : String
deriving DecidableEq, Repr

/-- An `HTTPException(status_code=..., detail=...)` raised by the
endpoint. -/
structure HTTPError where
  status : Nat
  detail : String
deriving DecidableEq, Repr

/-- A message of shape `{"role": ..., "content": ...}`, the convention
used for the chat model and for `AgentInputState`. -/
structure RoleMessage where
  role : String
  content : String
deriving DecidableEq, Repr

/-- A message of shape `{"type": ..., "content": ...}`, the convention
used for the single-agent researcher graph. -/
structure TypeMessage where
  type : String
  content : String
deriving DecidableEq, Repr

/-- `AgentInputState(messages=[...])`, the input of the full multi-agent
graph. -/
structure AgentInputState where
  messages : List RoleMessage
deriving DecidableEq, Repr

/-- The dictionary passed to `researcher_agent.ainvoke`. -/
structure ResearcherInput where
  researcher_messages : List TypeMessage
  research_topic : String
deriving DecidableEq, Repr

/-- The object returned by the chat model.  `content` is `none` when the
object has no `content` attribute, in which case the Python code falls
back to `str(response)`, embedded as `asString`. -/
structure LLMResponse where
  content : Option String
  asString : String
deriving DecidableEq, Repr

/-- The state dictionary returned by the researcher graph; only the key
`"compressed_research"` is read by the dispatcher (`none` = key absent). -/
structure QuickState where
  compressed_research : Option String
deriving DecidableEq, Repr

/-- The state dictionary returned by the full graph; only the key
`"final_report"` is read by the dispatcher (`none` = key absent). -/
structure FullState where
  final_report : Option String
deriving DecidableEq, Repr

/-- The characters Python `str.strip()` removes by default (the ASCII
whitespace characters). -/
def pyIsSpace (c : Char) : Bool :=
  c == ' ' || c == '\t' || c == '\n' || c == '\r' || c == '\x0b' || c == '\x0c'

/-- Python `s.strip()`: the string with leading and trailing whitespace
removed. -/
def pyStrip (s : String) : String :=
  ⟨((s.toList.dropWhile pyIsSpace).reverse.dropWhile pyIsSpace).reverse⟩

/-- `str(getattr(response, "content", response))`: the `content`
attribute when present, otherwise the string form of the object. -/
def llmText (r : LLMResponse) : String :=
  match r.content with
  | some c => c
  | none => r.asString

/-- Python `s or d` for a string `s`: `d` when `s` is empty. -/
def pyOrStr (s d : String) : String :=
  if s = "" then d else s

/-- Python `x or d` for `x : Optional[str]`: `d` when `x` is `None` or
the empty string (both are falsy). -/
def pyOrOpt (x : Option String) (d : String) : String :=
  match x with
  | none => d
  | some s => pyOrStr s d

/-- The three external collaborators, as black-box functions.  Each may
raise, embedded as `Except.error` carrying the exception text `str(exc)`.
The chat-model entry combines `init_chat_model` and `ainvoke` (an
exception from either lands in the same `try` block). -/
structure Collaborators where
  llm : String → String → Nat → List RoleMessage → Except String LLMResponse
  researcher : ResearcherInput → Except String QuickState
  full : AgentInputState → Except String FullState

/-- One collaborator invocation performed by the dispatcher, with the
exact arguments passed.  The chat-model record carries provider, model
name, temperature and the message list. -/
inductive CallRecord where
  | llm (provider mdl : String) (temperature : Nat) (messages : List RoleMessage)
  | researcher (input : ResearcherInput)
  | full (state : AgentInputState)
deriving DecidableEq, Repr

/-- The fixed fallback text substituted for an empty report. -/
def placeholder : String := "No report generated."

/-- Shallow embedding of the endpoint `run_research` in `app.py`.
Returns the HTTP outcome together with the list of collaborator
invocations performed while handling the request. -/
def run_research (collab : Collaborators) (request : ResearchRequest) :
    Except HTTPError ResearchResponse × List CallRecord :=
  if pyStrip request.question = "" then
    (Except.error ⟨400, "Question must not be empty."⟩, [])
  else
    let initial_state : AgentInputState := ⟨[⟨"user", request.question⟩]⟩
    match request.mode with
    | Mode.llm_only =>
      let provider := pyOrOpt request.provider "google_genai"
      let model_name := pyOrOpt request.model "gemini-2.5-pro"
      let msgs : List RoleMessage := [⟨"user", request.question⟩]
      match collab.llm provider model_name 0 msgs with
      | Except.error exc =>
        (Except.error ⟨500, "Research failed: " ++ exc⟩,
         [CallRecord.llm provider model_name 0 msgs])
      | Except.ok response =>
        let final_report := pyOrStr (llmText response) placeholder
        (Except.ok ⟨modeStr request.mode, request.question, final_report⟩,
         [CallRecord.llm provider model_name 0 msgs])
    | Mode.quick =>
      let input : ResearcherInput :=
        ⟨[⟨"human", request.question⟩], request.question⟩
      match collab.researcher input with
      | Except.error exc =>
        (Except.error ⟨500, "Research failed: " ++ exc⟩,
         [CallRecord.researcher input])
      | Except.ok quick_state =>
        let final_report :=
          pyOrStr (quick_state.compressed_research.getD "") placeholder
        (Except.ok ⟨modeStr request.mode, request.question, final_report⟩,
         [CallRecord.researcher input])
    | _ =>
      match collab.full initial_state with
      | Except.error exc =>
        (Except.error ⟨500, "Research failed: " ++ exc⟩,
         [CallRecord.full initial_state])
      | Except.ok result_state =>
        let final_report :=
          pyOrStr (result_state.final_report.getD "") placeholder
        (Except.ok ⟨modeStr request.mode, request.question, final_report⟩,
         [CallRecord.full initial_state])

/-- A collaborator environment in which every collaborator raises. -/
def errCollab : Collaborators where
  llm := fun _ _ _ _ => Except.error "provider unreachable"
  researcher := fun _ => Except.error "graph crashed"
  full := fun _ => Except.error "graph crashed"

/-- A collaborator environment in which every collaborator succeeds with
some fixed non-empty content. -/
def okCollab : Collaborators where
  llm := fun _ _ _ _ => Except.ok ⟨some "Quantum annealing is...", "obj"⟩
  researcher := fun _ => Except.ok ⟨some "quick findings"⟩
  full := fun _ => Except.ok ⟨some "full report"⟩

/-- A collaborator environment in which every collaborator succeeds but
returns an empty (or absent) report field. -/
def emptyCollab : Collaborators where
  llm := fun _ _ _ _ => Except.ok ⟨some "", ""⟩
  researcher := fun _ => Except.ok ⟨none⟩
  full := fun _ => Except.ok ⟨some ""⟩

/-- The collaborator that the dispatcher invokes for a given request
raises, with exception text `e`.  The arguments spelled out here are
exactly the ones `run_research` passes in each branch. -/
def collabRaises (collab : Collaborators) (request : ResearchRequest)
    (e : String) : Prop :=
  match request.mode with
  | Mode.llm_only =>
    collab.llm (pyOrOpt request.provider "google_genai")
      (pyOrOpt request.model "gemini-2.5-pro") 0
      [⟨"user", request.question⟩] = Except.error e
  | Mode.quick =>
    collab.researcher ⟨[⟨"human", request.question⟩], request.question⟩ =
      Except.error e
  | _ =>
    collab.full ⟨[⟨"user", request.question⟩]⟩ = Except.error e

/-- Auxiliary: an absent optional string falls back to the default. -/
theorem pyOrOpt_none (d : String) : pyOrOpt none d = d := rfl

/-- Auxiliary: a string of the form `pyOrStr s placeholder` is never
empty, for any `s`. -/
theorem pyOrStr_placeholder_ne_empty (s : String) :
    pyOrStr s placeholder ≠ "" := by
  unfold pyOrStr placeholder
  split
  · simp
  · assumption

end DeepResearch

namespace DeepResearch

/-- C1: a request whose question is empty or whitespace-only is rejected
with HTTP 400 and the fixed detail text, and no collaborator is invoked
(the call trace is empty). -/
theorem blank_question_rejected (collab : Collaborators)
    (request : ResearchRequest) (h : pyStrip request.question = "") :
    run_research collab request =
      (Except.error ⟨400, "Question must not be empty."⟩, []) := by
  simp [run_research, h]

/-- C1 witness: a concrete whitespace-only question is rejected with 400
and an empty call trace, in an environment whose collaborators would all
succeed. -/
theorem blank_question_rejected_witness :
    pyStrip "  " = "" ∧
    run_research okCollab ⟨"  ", Mode.deep_web, none, none, none⟩ =
      (Except.error ⟨400, "Question must not be empty."⟩, []) :=
  ⟨by decide, blank_question_rejected okCollab
    ⟨"  ", Mode.deep_web, none, none, none⟩ (by decide)⟩

end DeepResearch

namespace DeepResearch

/-- C2: if the collaborator invoked for a non-blank request raises with
text `e`, the endpoint returns HTTP 500 whose detail is the original
text prefixed with a fixed marker (so the detail contains `e`), and no
success response is produced. -/
theorem collaborator_error_gives_500 (collab : Collaborators)
    (request : ResearchRequest) (e : String)
    (hq : pyStrip request.question ≠ "")
    (he : collabRaises collab request e) :
    (run_research collab request).1 =
      Except.error ⟨500, "Research failed: " ++ e⟩ ∧
    ∃ p, "Research failed: " ++ e = p ++ e := by
  refine ⟨?_, "Research failed: ", rfl⟩
  unfold collabRaises at he
  unfold run_research
  rw [if_neg hq]
  cases hm : request.mode <;> rw [hm] at he <;> simp only [] <;> rw [he]

/-- C2 witness: a concrete request against collaborators that all raise
yields the 500 error carrying the exception text. -/
theorem collaborator_error_gives_500_witness :
    pyStrip "why" ≠ "" ∧
    collabRaises errCollab ⟨"why", Mode.quick, none, none, none⟩ "graph crashed" ∧
    (run_research errCollab ⟨"why", Mode.quick, none, none, none⟩).1 =
      Except.error ⟨500, "Research failed: graph crashed"⟩ :=
  ⟨by decide, rfl,
    (collaborator_error_gives_500 errCollab
      ⟨"why", Mode.quick, none, none, none⟩ "graph crashed"
      (by decide) rfl).1⟩

/-- C3: every success response echoes the request: its `mode` field is
the request's mode string and its `question` field is the request's
question, unchanged. -/
theorem response_echoes_request (collab : Collaborators)
    (request : ResearchRequest) (resp : ResearchResponse)
    (h : (run_research collab request).1 = Except.ok resp) :
    resp.mode = modeStr request.mode ∧ resp.question = request.question := by
  by_cases hq : pyStrip request.question = ""
  · simp [run_research, hq] at h
  · cases hm : request.mode with
    | quick =>
      cases hcall : collab.researcher
          ⟨[⟨"human", request.question⟩], request.question⟩ <;>
        simp [run_research, hq, hm, hcall] at h
      subst h
      simp
    | llm_only =>
      cases hcall : collab.llm (pyOrOpt request.provider "google_genai")
          (pyOrOpt request.model "gemini-2.5-pro") 0
          [⟨"user", request.question⟩] <;>
        simp [run_research, hq, hm, hcall] at h
      subst h
      simp
    | deep_web =>
      cases hcall : collab.full ⟨[⟨"user", request.question⟩]⟩ <;>
        simp [run_research, hq, hm, hcall] at h
      subst h
      simp
    | deep_web_and_local =>
      cases hcall : collab.full ⟨[⟨"user", request.question⟩]⟩ <;>
        simp [run_research, hq, hm, hcall] at h
      subst h
      simp

/-- C3 witness: a concrete successful request whose response echoes mode
and question. -/
theorem response_echoes_request_witness :
    (run_research okCollab ⟨"q1", Mode.quick, none, none, none⟩).1 =
      Except.ok ⟨"quick", "q1", "quick findings"⟩ ∧
    ("quick" = modeStr Mode.quick ∧ "q1" = "q1") :=
  ⟨rfl, response_echoes_request okCollab
    ⟨"q1", Mode.quick, none, none, none⟩ ⟨"quick", "q1", "quick findings"⟩ rfl⟩

/-- C7: every success response has a non-empty `final_report`: whenever
the collaborator's designated result field is empty or missing, the
placeholder is substituted. -/
theorem final_report_nonempty (collab : Collaborators)
    (request : ResearchRequest) (resp : ResearchResponse)
    (h : (run_research collab request).1 = Except.ok resp) :
    resp.final_report ≠ "" := by
  by_cases hq : pyStrip request.question = ""
  · simp [run_research, hq] at h
  · cases hm : request.mode with
    | quick =>
      cases hcall : collab.researcher
          ⟨[⟨"human", request.question⟩], request.question⟩ <;>
        simp [run_research, hq, hm, hcall] at h
      subst h
      simp [pyOrStr_placeholder_ne_empty]
    | llm_only =>
      cases hcall : collab.llm (pyOrOpt request.provider "google_genai")
          (pyOrOpt request.model "gemini-2.5-pro") 0
          [⟨"user", request.question⟩] <;>
        simp [run_research, hq, hm, hcall] at h
      subst h
      simp [pyOrStr_placeholder_ne_empty]
    | deep_web =>
      cases hcall : collab.full ⟨[⟨"user", request.question⟩]⟩ <;>
        simp [run_research, hq, hm, hcall] at h
      subst h
      simp [pyOrStr_placeholder_ne_empty]
    | deep_web_and_local =>
      cases hcall : collab.full ⟨[⟨"user", request.question⟩]⟩ <;>
        simp [run_research, hq, hm, hcall] at h
      subst h
      simp [pyOrStr_placeholder_ne_empty]

/-- C7 witness: a concrete request whose collaborator returns an empty
report still yields a non-empty `final_report` (the placeholder). -/
theorem final_report_nonempty_witness :
    (run_research emptyCollab ⟨"q2", Mode.deep_web, none, none, none⟩).1 =
      Except.ok ⟨"deep_web", "q2", "No report generated."⟩ ∧
    ("No report generated." : String) ≠ "" :=
  ⟨rfl, final_report_nonempty emptyCollab
    ⟨"q2", Mode.deep_web, none, none, none⟩
    ⟨"deep_web", "q2", "No report generated."⟩ rfl⟩

end DeepResearch

namespace DeepResearch

/-- C4: for a non-blank `llm_only` request, exactly one chat-completion
call is made, with temperature 0, the raw question as the sole message,
and the request's provider and model or the fixed defaults; on success
with content `c`, `final_report` is `c`, or the placeholder when `c` is
empty. -/
theorem llm_only_dispatch (collab : Collaborators)
    (request : ResearchRequest)
    (hm : request.mode = Mode.llm_only)
    (hq : pyStrip request.question ≠ "") :
    (run_research collab request).2 =
      [CallRecord.llm (pyOrOpt request.provider "google_genai")
        (pyOrOpt request.model "gemini-2.5-pro") 0
        [⟨"user", request.question⟩]] ∧
    (∀ r c, collab.llm (pyOrOpt request.provider "google_genai")
        (pyOrOpt request.model "gemini-2.5-pro") 0
        [⟨"user", request.question⟩] = Except.ok r →
      r.content = some c →
      (run_research collab request).1 =
        Except.ok ⟨"llm_only", request.question, pyOrStr c placeholder⟩) := by
  constructor
  · cases hcall : collab.llm (pyOrOpt request.provider "google_genai")
        (pyOrOpt request.model "gemini-2.5-pro") 0
        [⟨"user", request.question⟩] <;>
      simp [run_research, hq, hm, hcall]
  · intro r c hcall hc
    simp [run_research, hq, hm, hcall, llmText, hc, modeStr]

/-- C4 witness: a concrete `llm_only` request with absent provider and
model makes exactly the default-configured chat call and returns its
content. -/
theorem llm_only_dispatch_witness :
    pyStrip "q3" ≠ "" ∧
    (run_research okCollab ⟨"q3", Mode.llm_only, none, none, none⟩).2 =
      [CallRecord.llm "google_genai" "gemini-2.5-pro" 0 [⟨"user", "q3"⟩]] ∧
    (run_research okCollab ⟨"q3", Mode.llm_only, none, none, none⟩).1 =
      Except.ok ⟨"llm_only", "q3", "Quantum annealing is..."⟩ :=
  ⟨by decide,
    (llm_only_dispatch okCollab ⟨"q3", Mode.llm_only, none, none, none⟩
      rfl (by decide)).1,
    (llm_only_dispatch okCollab ⟨"q3", Mode.llm_only, none, none, none⟩
      rfl (by decide)).2 ⟨some "Quantum annealing is...", "obj"⟩
      "Quantum annealing is..." rfl rfl⟩

/-- C5: for a non-blank `quick` request, exactly one researcher-graph
invocation occurs, seeded with the question as the single message and as
the research topic; on success `final_report` is the
`compressed_research` field, or the placeholder when absent or empty. -/
theorem quick_dispatch (collab : Collaborators)
    (request : ResearchRequest)
    (hm : request.mode = Mode.quick)
    (hq : pyStrip request.question ≠ "") :
    (run_research collab request).2 =
      [CallRecord.researcher
        ⟨[⟨"human", request.question⟩], request.question⟩] ∧
    (∀ st, collab.researcher
        ⟨[⟨"human", request.question⟩], request.question⟩ = Except.ok st →
      (run_research collab request).1 =
        Except.ok ⟨"quick", request.question,
          pyOrStr (st.compressed_research.getD "") placeholder⟩) := by
  constructor
  · cases hcall : collab.researcher
        ⟨[⟨"human", request.question⟩], request.question⟩ <;>
      simp [run_research, hq, hm, hcall]
  · intro st hcall
    simp [run_research, hq, hm, hcall, modeStr]

/-- C5 witness: a concrete `quick` request makes exactly one researcher
invocation seeded with the question, and returns its compressed
research. -/
theorem quick_dispatch_witness :
    pyStrip "q4" ≠ "" ∧
    (run_research okCollab ⟨"q4", Mode.quick, none, none, none⟩).2 =
      [CallRecord.researcher ⟨[⟨"human", "q4"⟩], "q4"⟩] ∧
    (run_research okCollab ⟨"q4", Mode.quick, none, none, none⟩).1 =
      Except.ok ⟨"quick", "q4", "quick findings"⟩ :=
  ⟨by decide,
    (quick_dispatch okCollab ⟨"q4", Mode.quick, none, none, none⟩
      rfl (by decide)).1,
    (quick_dispatch okCollab ⟨"q4", Mode.quick, none, none, none⟩
      rfl (by decide)).2 ⟨some "quick findings"⟩ rfl⟩

/-- C6: for a non-blank `deep_web` or `deep_web_and_local` request,
exactly one full-graph invocation occurs, seeded with the question as
the sole initial user message; on success `final_report` is the
`final_report` field of the result, or the placeholder when absent or
empty; and the two modes produce the same calls and responses differing
only in the echoed `mode` field. -/
theorem deep_modes_dispatch (collab : Collaborators)
    (request : ResearchRequest)
    (hm : request.mode = Mode.deep_web ∨
      request.mode = Mode.deep_web_and_local)
    (hq : pyStrip request.question ≠ "") :
    (run_research collab request).2 =
      [CallRecord.full ⟨[⟨"user", request.question⟩]⟩] ∧
    (∀ st, collab.full ⟨[⟨"user", request.question⟩]⟩ = Except.ok st →
      (run_research collab request).1 =
        Except.ok ⟨modeStr request.mode, request.question,
          pyOrStr (st.final_report.getD "") placeholder⟩) ∧
    (run_research collab { request with mode := Mode.deep_web }).2 =
      (run_research collab
        { request with mode := Mode.deep_web_and_local }).2 ∧
    Except.map (fun resp => (resp.question, resp.final_report))
        (run_research collab { request with mode := Mode.deep_web }).1 =
      Except.map (fun resp => (resp.question, resp.final_report))
        (run_research collab
          { request with mode := Mode.deep_web_and_local }).1 := by
  refine ⟨?_, ?_, ?_, ?_⟩
  · rcases hm with hm | hm <;>
      cases hcall : collab.full ⟨[⟨"user", request.question⟩]⟩ <;>
      simp [run_research, hq, hm, hcall]
  · intro st hcall
    rcases hm with hm | hm <;> simp [run_research, hq, hm, hcall, modeStr]
  · cases hcall : collab.full ⟨[⟨"user", request.question⟩]⟩ <;>
      simp [run_research, hq, hcall]
  · cases hcall : collab.full ⟨[⟨"user", request.question⟩]⟩ <;>
      simp [run_research, hq, hcall, Except.map]

/-- C6 witness: a concrete `deep_web` request makes exactly one
full-graph invocation and returns its final report, and switching the
mode to `deep_web_and_local` changes nothing but the echoed mode. -/
theorem deep_modes_dispatch_witness :
    pyStrip "q5" ≠ "" ∧
    (run_research okCollab ⟨"q5", Mode.deep_web, none, none, none⟩).2 =
      [CallRecord.full ⟨[⟨"user", "q5"⟩]⟩] ∧
    (run_research okCollab ⟨"q5", Mode.deep_web, none, none, none⟩).1 =
      Except.ok ⟨"deep_web", "q5", "full report"⟩ ∧
    Except.map (fun resp => (resp.question, resp.final_report))
        (run_research okCollab
          ⟨"q5", Mode.deep_web, none, none, none⟩).1 =
      Except.map (fun resp => (resp.question, resp.final_report))
        (run_research okCollab
          ⟨"q5", Mode.deep_web_and_local, none, none, none⟩).1 :=
  ⟨by decide,
    (deep_modes_dispatch okCollab ⟨"q5", Mode.deep_web, none, none, none⟩
      (Or.inl rfl) (by decide)).1,
    (deep_modes_dispatch okCollab ⟨"q5", Mode.deep_web, none, none, none⟩
      (Or.inl rfl) (by decide)).2.1 ⟨some "full report"⟩ rfl,
    (deep_modes_dispatch okCollab ⟨"q5", Mode.deep_web, none, none, none⟩
      (Or.inl rfl) (by decide)).2.2.2⟩

end DeepResearch

namespace DeepResearch

/-- C9: the `template` field is never read by the dispatcher: two
requests identical except for `template` produce the same outcome and
the same collaborator invocations, against any collaborator behaviour. -/
theorem template_has_no_effect (collab : Collaborators)
    (request : ResearchRequest) (t1 t2 : Option String) :
    run_research collab { request with template := t1 } =
      run_research collab { request with template := t2 } := by
  simp [run_research]

/-- C10: in `llm_only` mode, each of the provider and model fields is
defaulted independently whenever it is falsy (absent or the empty
string), not only when it is null: a falsy provider behaves exactly like
an absent one and the chat call carries the default provider while the
model keeps the request's value, and symmetrically for a falsy model. -/
theorem falsy_provider_model_use_defaults (collab : Collaborators)
    (request : ResearchRequest)
    (hm : request.mode = Mode.llm_only)
    (hq : pyStrip request.question ≠ "") :
    (request.provider = none ∨ request.provider = some "" →
      run_research collab request =
        run_research collab { request with provider := none } ∧
      (run_research collab request).2 =
        [CallRecord.llm "google_genai"
          (pyOrOpt request.model "gemini-2.5-pro") 0
          [⟨"user", request.question⟩]]) ∧
    (request.model = none ∨ request.model = some "" →
      run_research collab request =
        run_research collab { request with model := none } ∧
      (run_research collab request).2 =
        [CallRecord.llm (pyOrOpt request.provider "google_genai")
          "gemini-2.5-pro" 0
          [⟨"user", request.question⟩]]) := by
  constructor
  · intro hp
    have hp' : pyOrOpt request.provider "google_genai" = "google_genai" := by
      rcases hp with h | h <;> simp [h, pyOrOpt, pyOrStr]
    constructor <;>
      cases hcall : collab.llm "google_genai"
          (pyOrOpt request.model "gemini-2.5-pro") 0
          [⟨"user", request.question⟩] <;>
        simp [run_research, hq, hm, hp', hcall, pyOrOpt_none]
  · intro hmdl
    have hmdl' : pyOrOpt request.model "gemini-2.5-pro" = "gemini-2.5-pro" := by
      rcases hmdl with h | h <;> simp [h, pyOrOpt, pyOrStr]
    constructor <;>
      cases hcall : collab.llm (pyOrOpt request.provider "google_genai")
          "gemini-2.5-pro" 0
          [⟨"user", request.question⟩] <;>
        simp [run_research, hq, hm, hmdl', hcall, pyOrOpt_none]

/-- C10 witness: two concrete mixed cases: an empty-string provider
alongside a concrete model is defaulted to the fixed provider while the
model is kept, and an empty-string model alongside a concrete provider
is defaulted to the fixed model while the provider is kept. -/
theorem falsy_provider_model_use_defaults_witness :
    pyStrip "q6" ≠ "" ∧
    (run_research okCollab
        ⟨"q6", Mode.llm_only, none, some "", some "gpt-4.1"⟩ =
      run_research okCollab
        ⟨"q6", Mode.llm_only, none, none, some "gpt-4.1"⟩ ∧
    (run_research okCollab
        ⟨"q6", Mode.llm_only, none, some "", some "gpt-4.1"⟩).2 =
      [CallRecord.llm "google_genai" "gpt-4.1" 0 [⟨"user", "q6"⟩]]) ∧
    (run_research okCollab
        ⟨"q6", Mode.llm_only, none, some "anthropic", some ""⟩ =
      run_research okCollab
        ⟨"q6", Mode.llm_only, none, some "anthropic", none⟩ ∧
    (run_research okCollab
        ⟨"q6", Mode.llm_only, none, some "anthropic", some ""⟩).2 =
      [CallRecord.llm "anthropic" "gemini-2.5-pro" 0 [⟨"user", "q6"⟩]]) :=
  ⟨by decide,
    (falsy_provider_model_use_defaults okCollab
      ⟨"q6", Mode.llm_only, none, some "", some "gpt-4.1"⟩ rfl
      (by decide)).1 (Or.inr rfl),
    (falsy_provider_model_use_defaults okCollab
      ⟨"q6", Mode.llm_only, none, some "anthropic", some ""⟩ rfl
      (by decide)).2 (Or.inr rfl)⟩

/-- Abstraction of the launcher's environment in `run.py`: the resolved
backend path, whether the backend file exists on disk, whether
`spec_from_file_location` yields a usable spec, how executing the module
ends, whether the module exposes `app`, and how the server run ends
(`Except.ok` = normal shutdown). -/
structure LauncherEnv where
  backendPath : String
  backendExists : Bool
  specLoadable : Bool
  execModule : Except String Unit
  hasAppAttr : Bool
  serverRun : Except String Unit

/-- How `main` in `run.py` ends: with a return code, or with an uncaught
exception propagating out of it. -/
inductive LaunchOutcome where
  | exitCode (code : Nat)
  | uncaught (msg : String)
deriving DecidableEq, Repr

/-- Shallow embedding of `load_app_from_path` in `run.py`: raises when
the module spec cannot be created, when executing the module raises, or
when the loaded module exposes no `app` object. -/
def load_app_from_path (env : LauncherEnv) : Except String Unit :=
  if env.specLoadable then
    match env.execModule with
    | Except.error e => Except.error e
    | Except.ok _ =>
      if env.hasAppAttr then
        Except.ok ()
      else
        Except.error ("Module " ++ env.backendPath ++
          " does not expose `app` ASGI object")
  else
    Except.error ("Cannot load module from " ++ env.backendPath)

/-- Shallow embedding of `main` in `run.py` (argument parsing elided: it
does not influence the exit code): returns 2 when the backend file is
missing, otherwise loads the module and runs the server, returning 0
when the server shuts down normally. -/
def main (env : LauncherEnv) : LaunchOutcome :=
  if env.backendExists then
    match load_app_from_path env with
    | Except.error e => LaunchOutcome.uncaught e
    | Except.ok _ =>
      match env.serverRun with
      | Except.error e => LaunchOutcome.uncaught e
      | Except.ok _ => LaunchOutcome.exitCode 0
  else
    LaunchOutcome.exitCode 2

end DeepResearch

namespace DeepResearch

/-- C8: the launcher returns exit code 2 when the backend app file does
not exist on disk, and exit code 0 when the file exists, the module
loads, and the server shuts down normally. -/
theorem launcher_exit_codes (env : LauncherEnv) :
    (env.backendExists = false → main env = LaunchOutcome.exitCode 2) ∧
    (env.backendExists = true → load_app_from_path env = Except.ok () →
      env.serverRun = Except.ok () →
      main env = LaunchOutcome.exitCode 0) := by
  constructor
  · intro h
    simp [main, h]
  · intro h hload hsrv
    simp [main, h, hload, hsrv]

/-- C8 witness: concrete environments where the backend file is missing
(exit 2) and where everything succeeds (exit 0). -/
theorem launcher_exit_codes_witness :
    main ⟨"p", false, true, Except.ok (), true, Except.ok ()⟩ =
      LaunchOutcome.exitCode 2 ∧
    main ⟨"p", true, true, Except.ok (), true, Except.ok ()⟩ =
      LaunchOutcome.exitCode 0 :=
  ⟨(launcher_exit_codes ⟨"p", false, true, Except.ok (), true,
      Except.ok ()⟩).1 rfl,
    (launcher_exit_codes ⟨"p", true, true, Except.ok (), true,
      Except.ok ()⟩).2 rfl rfl rfl⟩

end DeepResearch
